import Mathlib

/-!
Verification of the automation execution engine of the Auto-game repository
(`src/task/manager.py`, `src/recognition/matcher.py`,
`src/emulator/controller.py`, `src/utils/text_utils.py`).

The Python code is shallowly embedded: pure computations become Lean
functions; the mutable interpreter state of `TaskManager` becomes an
explicit `RunState` threaded through a fuel-indexed step loop; external
effects (the ADB transport, OpenCV correlation, the filesystem, the GUI
callback) are supplied as explicit oracle parameters, since the claims
under check quantify over their possible answers.  Python floats are
represented by rationals; every float computation at issue (division,
max, comparison of a square root of an integer against an integer bound
in realistic coordinate ranges) is exact, so the representation is
faithful on the values the claims reach.
-/

namespace AutoGame

/-! ## Text utilities (`src/utils/text_utils.py`) -/

/-- Canonical (NFD) decomposition of one character, as
`unicodedata.normalize("NFD", ...)` applies it in `remove_accents`
(text_utils.py line 22), restricted to the character repertoire this
development exercises: the precomposed Vietnamese vowels below decompose
into the base letter followed by combining marks in canonical order
(marks of combining class 220 before class 230).  U+0110 (Đ) and U+0111
(đ) have no canonical decomposition in the Unicode character database (a
bar/stroke is a letter modification, not a combining mark), so they stay
themselves, as does every character not listed. -/
def nfdChar (c : Char) : List Char :=
  if c = 'ế' then ['e', '̂', '́']
  else if c = 'Ế' then ['E', '̂', '́']
  else if c = 'ề' then ['e', '̂', '̀']
  else if c = 'ệ' then ['e', '̣', '̂']
  else if c = 'Ệ' then ['E', '̣', '̂']
  else if c = 'ê' then ['e', '̂']
  else if c = 'Ê' then ['E', '̂']
  else if c = 'á' then ['a', '́']
  else if c = 'à' then ['a', '̀']
  else if c = 'ạ' then ['a', '̣']
  else if c = 'ị' then ['i', '̣']
  else [c]

/-- Unicode general category Mn (nonspacing combining mark) test as
`unicodedata.category(char) != "Mn"` uses it (text_utils.py line 27),
restricted to the combining diacritical marks block U+0300..U+036F, the
only Mn characters the repertoire above produces. -/
def isMn (c : Char) : Bool :=
  decide (0x300 ≤ c.toNat ∧ c.toNat ≤ 0x36F)

/-- Canonical composition of a base character with a following combining
mark, the primitive of `unicodedata.normalize("NFC", ...)`
(text_utils.py line 31), restricted to the repertoire above.  After the
Mn filter of `remove_accents` no combining mark remains in the string,
so on every string that reaches it the NFC pass is the identity. -/
def composePair (base mark : Char) : Option Char :=
  if base = 'e' ∧ mark = '̂' then some 'ê'
  else if base = 'E' ∧ mark = '̂' then some 'Ê'
  else if base = 'ê' ∧ mark = '́' then some 'ế'
  else if base = 'Ê' ∧ mark = '́' then some 'Ế'
  else if base = 'ê' ∧ mark = '̀' then some 'ề'
  else if base = 'e' ∧ mark = '̣' then some 'ẹ'
  else if base = 'E' ∧ mark = '̣' then some 'Ẹ'
  else if base = 'ẹ' ∧ mark = '̂' then some 'ệ'
  else if base = 'Ẹ' ∧ mark = '̂' then some 'Ệ'
  else if base = 'a' ∧ mark = '́' then some 'á'
  else if base = 'a' ∧ mark = '̀' then some 'à'
  else if base = 'a' ∧ mark = '̣' then some 'ạ'
  else if base = 'i' ∧ mark = '̣' then some 'ị'
  else none

/-- The left-to-right canonical recomposition pass of NFC, carrying the
character under consideration. -/
def nfcComposeAux (c : Char) : List Char → List Char
  | [] => [c]
  | m :: rest =>
    match composePair c m with
    | some cm => nfcComposeAux cm rest
    | none => c :: nfcComposeAux m rest

/-- The canonical recomposition pass of NFC over a character list. -/
def nfcCompose : List Char → List Char
  | [] => []
  | c :: rest => nfcComposeAux c rest

/-- `remove_accents` (text_utils.py lines 8-31): empty text is returned
as is; otherwise NFD-decompose, drop the category-Mn characters,
NFC-normalize the result. -/
def remove_accents_chars (s : List Char) : List Char :=
  if s = [] then s
  else nfcCompose (((s.map nfdChar).flatten).filter (fun c => !(isMn c)))

/-- Word character of the Python regex `\w` over `str` (Unicode-aware):
any Unicode letter or digit, or the underscore.  ASCII is covered by
`Char.isAlpha`/`Char.isDigit`; the non-ASCII letters of the repertoire
above are listed explicitly. -/
def isWordChar (c : Char) : Bool :=
  c.isAlpha || c.isDigit || c = '_' || c = 'Đ' || c = 'đ' || c = 'ê'
    || c = 'Ê' || c = 'ẹ' || c = 'Ẹ' || c = 'á' || c = 'à' || c = 'ạ'
    || c = 'ị' || c = 'ế' || c = 'Ế' || c = 'ề' || c = 'ệ' || c = 'Ệ'

/-- Collapse of each maximal run of underscores, carrying the character
under consideration. -/
def collapseAux (c : Char) : List Char → List Char
  | [] => [c]
  | d :: rest =>
    if c = '_' ∧ d = '_' then collapseAux '_' rest
    else c :: collapseAux d rest

/-- Collapse of each maximal run of underscores to one underscore:
`re.sub(r"_+", "_", text)` (text_utils.py line 57). -/
def collapseUnderscores : List Char → List Char
  | [] => []
  | c :: rest => collapseAux c rest

/-- `text.strip("_")` (text_utils.py line 60). -/
def stripUnderscores (s : List Char) : List Char :=
  ((s.dropWhile (fun c => c = '_')).reverse.dropWhile (fun c => c = '_')).reverse

/-- `sanitize_filename` (text_utils.py lines 34-62) on a character list:
empty text as is; remove accents; spaces to underscores
(`text.replace(" ", "_")`, line 51); drop characters outside
word/hyphen/underscore (`re.sub` of the inverted class, line 54);
collapse repeated underscores; strip leading and trailing underscores. -/
def sanitize_filename_chars (s : List Char) : List Char :=
  if s = [] then s
  else
    let t := remove_accents_chars s
    let t := t.map (fun c => if c = ' ' then '_' else c)
    let t := t.filter (fun c => isWordChar c || c = '-' || c = '_')
    stripUnderscores (collapseUnderscores t)

/-- `sanitize_filename` on a `String`. -/
def sanitize_filename (s : String) : String :=
  String.mk (sanitize_filename_chars s.data)

/-! ## Image matcher (`src/recognition/matcher.py`)

The OpenCV call `cv2.matchTemplate` is external numeric code; its output
is modelled as the list of cells of the correlation-result matrix in the
row-major scan order `cv2.minMaxLoc` and `np.where` use: each cell is a
top-left location `(x, y)` paired with its correlation score.  The
template is `w` pixels wide and `h` high. -/

/-- The maximum-finding half of `cv2.minMaxLoc` (matcher.py line 121):
value and location of the maximum score, the first occurrence in scan
order winning (the fold replaces the best only on a strictly greater
score). -/
def maxLoc : List ((Nat × Nat) × ℚ) → Option ((Nat × Nat) × ℚ)
  | [] => none
  | c :: rest =>
    some (rest.foldl (fun best x => if best.2 < x.2 then x else best) c)

/-- `ImageMatcher.find_template` after the correlation (matcher.py lines
119-132): `None` when the maximum score is below the threshold, else
the centre of the best location, `(max_x + w // 2, max_y + h // 2)`.
The earlier early return `None` on a template that fails to load
(lines 86-88) is outside the correlation result this models. -/
def find_template (w h : Nat) (threshold : ℚ)
    (cells : List ((Nat × Nat) × ℚ)) : Option (Nat × Nat) :=
  match maxLoc cells with
  | none => none
  | some lm =>
    if lm.2 < threshold then none
    else some (lm.1.1 + w / 2, lm.1.2 + h / 2)

/-- The candidate centres of `find_all_templates` (matcher.py lines
195-207): all cells with score at or above the threshold
(`np.where(result >= threshold)`), turned into centre coordinates with
their confidence. -/
def matchCenters (w h : Nat) (threshold : ℚ)
    (cells : List ((Nat × Nat) × ℚ)) : List ((Nat × Nat) × ℚ) :=
  (cells.filter (fun c => threshold ≤ c.2)).map
    (fun c => ((c.1.1 + w / 2, c.1.2 + h / 2), c.2))

/-- The closeness test of the deduplication loop (matcher.py lines
217-218).  The source compares `((x-ex)**2 + (y-ey)**2) ** 0.5 <
min_distance`; both sides are nonnegative, so comparing the squares is
the same test, written here over exact integers. -/
def tooClose (minDist : Nat) (p q : Nat × Nat) : Bool :=
  decide (((p.1 : Int) - q.1) ^ 2 + ((p.2 : Int) - q.2) ^ 2
    < (minDist : Int) ^ 2)

/-- The greedy filter of `find_all_templates` (matcher.py lines 212-223):
walk the confidence-sorted candidates, accept one only if it is not too
close to every already-accepted point. -/
def dedupLoop (minDist : Nat) (acc : List (Nat × Nat)) :
    List ((Nat × Nat) × ℚ) → List (Nat × Nat)
  | [] => acc
  | c :: rest =>
    if acc.any (fun q => tooClose minDist c.1 q) then
      dedupLoop minDist acc rest
    else dedupLoop minDist (acc ++ [c.1]) rest

/-- Descending-confidence order of
`match_points.sort(key=lambda x: x[2], reverse=True)` (matcher.py line
210): `a` may stand before `b` when its confidence is at least as
high.  A stable sort by a total preorder has a unique output, so
Python's stable sort and the stable `List.insertionSort` below produce
the same list. -/
def confDescBefore (a b : (Nat × Nat) × ℚ) : Prop :=
  b.2 ≤ a.2

instance (a b : (Nat × Nat) × ℚ) : Decidable (confDescBefore a b) :=
  inferInstanceAs (Decidable (b.2 ≤ a.2))

instance : IsTotal ((Nat × Nat) × ℚ) confDescBefore :=
  ⟨fun a b => le_total b.2 a.2⟩

instance : IsTrans ((Nat × Nat) × ℚ) confDescBefore :=
  ⟨fun _ _ _ hab hbc => le_trans hbc hab⟩

/-- `ImageMatcher.find_all_templates` after the correlation (matcher.py
lines 192-225): threshold, centre, sort by descending confidence,
greedily deduplicate with minimum distance `max(w, h) // 2`. -/
def find_all_templates (w h : Nat) (threshold : ℚ)
    (cells : List ((Nat × Nat) × ℚ)) : List (Nat × Nat) :=
  let minDistance := max w h / 2
  dedupLoop minDistance []
    ((matchCenters w h threshold cells).insertionSort confDescBefore)

/-! ## Emulator controller (`src/emulator/controller.py`)

The subprocess transport is an oracle `AdbEnv.exec`: the stdout of a
command when it runs and exits with status 0, `none` when it fails or
raises (controller.py lines 285-302).  Each operation returns its result
together with the list of remote commands it issued, so that "issues no
remote command" is an observable statement. -/

/-- The connection-relevant state of `EmulatorController` (controller.py
lines 24-31). -/
structure Controller where
  connected : Bool
  deviceId : Option String
  adbPath : String
deriving Repr, DecidableEq

/-- The transport oracle. -/
structure AdbEnv where
  exec : List String → Option String

/-- `EmulatorController._run_adb_command` (controller.py lines 271-302):
`None` without issuing anything when not connected; otherwise run
`[adb, "-s", device_id] ++ command` and return its stdout on success,
`None` on a nonzero status or an exception. -/
def run_adb_command (env : AdbEnv) (c : Controller) (command : List String) :
    Option String × List (List String) :=
  if !c.connected then (none, [])
  else
    let full := [c.adbPath, "-s", c.deviceId.getD ""] ++ command
    (env.exec full, [full])

/-- `EmulatorController.click` (controller.py lines 358-373). -/
def click (env : AdbEnv) (c : Controller) (x y : Int) :
    Bool × List (List String) :=
  if !c.connected then (false, [])
  else
    let r := run_adb_command env c ["shell", "input", "tap", toString x, toString y]
    (r.1.isSome, r.2)

/-- `EmulatorController.swipe` (controller.py lines 375-396). -/
def swipe (env : AdbEnv) (c : Controller) (x1 y1 x2 y2 : Int)
    (duration : Int) : Bool × List (List String) :=
  if !c.connected then (false, [])
  else
    let r := run_adb_command env c
      ["shell", "input", "swipe", toString x1, toString y1, toString x2,
        toString y2, toString duration]
    (r.1.isSome, r.2)

/-- `EmulatorController.input_text` (controller.py lines 398-414),
including the escaping of spaces and ampersands. -/
def input_text (env : AdbEnv) (c : Controller) (text : String) :
    Bool × List (List String) :=
  if !c.connected then (false, [])
  else
    let escaped := (text.replace " " "%s").replace "&" "\\&"
    let r := run_adb_command env c ["shell", "input", "text", escaped]
    (r.1.isSome, r.2)

/-- `EmulatorController.press_key` (controller.py lines 416-430). -/
def press_key (env : AdbEnv) (c : Controller) (keycode : String) :
    Bool × List (List String) :=
  if !c.connected then (false, [])
  else
    let r := run_adb_command env c ["shell", "input", "keyevent", keycode]
    (r.1.isSome, r.2)

/-- The output parse of `get_screen_size` (controller.py lines 444-451):
last whitespace-separated token of the trimmed output, split at `x`,
both halves parsed as integers; any failure inside the `try` yields
`None`. -/
def parseWmSize (out : String) : Option (Int × Int) :=
  let tokens := (out.trim.split (fun c => c.isWhitespace)).filter
    (fun t => t ≠ "")
  match tokens.getLast? with
  | none => none
  | some last =>
    match (last.splitOn "x").map String.toInt? with
    | [some w, some h] => some (w, h)
    | _ => none

/-- `EmulatorController.get_screen_size` (controller.py lines 432-453). -/
def get_screen_size (env : AdbEnv) (c : Controller) :
    Option (Int × Int) × List (List String) :=
  if !c.connected then (none, [])
  else
    let r := run_adb_command env c ["shell", "wm", "size"]
    match r.1 with
    | some out => (parseWmSize out, r.2)
    | none => (none, r.2)

/-! ## Task manager (`src/task/manager.py`) -/

/-- Log events emitted by `TaskManager.run_task` (manager.py lines
90-107).  Info-level messages no claim mentions are elided; the two jump
messages (lines 98 and 101), the step-failure warning (line 91) and the
completion message (line 107) are kept because the claims talk about
them. -/
inductive LogMsg where
  | jumpToStep (n : Int)
  | invalidJump (n : Int)
  | stepFailedWarn
  | taskCompleted
deriving Repr, DecidableEq

/-- The mutable flags of `TaskManager` that `run_task` and the step
handlers read and write: `self.running`, `self.user_requested_stop`,
`self.force_stop_task` (manager.py lines 40-46).  `self.next_step_index`
is written to `None` before every step (line 88) and read immediately
after the handler returns (line 96), so it never flows between
iterations; it is modelled as the third component of a handler result
instead of a state field. -/
structure RunState where
  running : Bool
  userRequestedStop : Bool
  forceStopTask : Bool
deriving Repr, DecidableEq

/-- Observable outcome of a run: the boolean `run_task` returns, the
final flag state, the loop-level log, and the 1-based indices of the
steps whose handlers were invoked (observational instrumentation: the
source logs each executed step at line 131, so the trace is the sequence
of those log entries). -/
structure RunOutcome where
  ok : Bool
  state : RunState
  log : List LogMsg
  trace : List Nat
deriving Repr, DecidableEq

/-- Jump resolution of `run_task`, manager.py lines 96-105: an accepted
jump needs `1 <= next_step_index <= len(steps)`; anything else is logged
as a warning and the cursor advances by one; with no jump set the cursor
advances by one.  Returns the next cursor value and the log entries. -/
def resolveJump (len stepIndex : Nat) : Option Int → Nat × List LogMsg
  | none => (stepIndex + 1, [])
  | some n =>
    if 1 ≤ n ∧ n ≤ (len : Int) then (n.toNat, [LogMsg.jumpToStep n])
    else (stepIndex + 1, [LogMsg.invalidJump n])

/-- The `while step_index <= len(steps)` loop of `TaskManager.run_task`
(manager.py lines 81-108), fuel-indexed because accepted jumps may move
the cursor backwards (the spec itself exhibits an infinite re-jump
program); `none` means the fuel ran out before the run terminated.

The loop is generic over the step type `α`, a required projection
(`step.get("required", True)`, line 92) and a handler semantics `exec`
standing for `self._execute_step`: the handler returns the updated flag
state, its boolean result, and the value it left in
`self.next_step_index`.  Per iteration, mirroring the source: check the
cursor bound, break when `running` is false (lines 82-83; the break
falls through to `return True`, line 108, and the `finally` clears
`running`, line 114), fetch `steps[step_index - 1]`, run the handler, on
failure log a warning and abort with `False` when the step is required
(lines 90-93), then resolve the jump (lines 96-105).  The `none` branch
of the list lookup models the impossible-index `IndexError` path, caught
at line 110 and reported as `False`; it is unreachable because the
cursor is 1 at entry and every accepted jump target is at least 1. -/
def runLoop {α : Type} (req : α → Bool)
    (exec : α → RunState → RunState × Bool × Option Int) (steps : List α) :
    Nat → Nat → RunState → List LogMsg → List Nat → Option RunOutcome
  | 0, _, _, _, _ => none
  | fuel + 1, stepIndex, st, log, trace =>
    if stepIndex ≤ steps.length then
      if st.running then
        match steps[stepIndex - 1]? with
        | none => some ⟨false, { st with running := false }, log, trace⟩
        | some step =>
          let r := exec step st
          if r.2.1 then
            let nx := resolveJump steps.length stepIndex r.2.2
            runLoop req exec steps fuel nx.1 r.1 (log ++ nx.2) (trace ++ [stepIndex])
          else if req step then
            some ⟨false, { r.1 with running := false },
              log ++ [LogMsg.stepFailedWarn], trace ++ [stepIndex]⟩
          else
            let nx := resolveJump steps.length stepIndex r.2.2
            runLoop req exec steps fuel nx.1 r.1
              (log ++ [LogMsg.stepFailedWarn] ++ nx.2) (trace ++ [stepIndex])
      else
        some ⟨true, { st with running := false },
          log ++ [LogMsg.taskCompleted], trace⟩
    else
      some ⟨true, { st with running := false },
        log ++ [LogMsg.taskCompleted], trace⟩

/-- `TaskManager.run_task` once the task has been found in the config
(manager.py lines 72-81): reset `running := True` and
`force_stop_task := False` (`user_requested_stop` is not reset), start
the loop at cursor 1 with an empty log. -/
def run_task {α : Type} (req : α → Bool)
    (exec : α → RunState → RunState × Bool × Option Int) (steps : List α)
    (fuel : Nat) (st : RunState) : Option RunOutcome :=
  runLoop req exec steps fuel 1
    { st with running := true, forceStopTask := false } [] []

/-- `TaskManager.stop` (manager.py lines 454-456). -/
def stop (st : RunState) : RunState :=
  { st with running := false }

/-- Prepend already-accumulated log and trace onto an outcome. -/
def withAccum (log : List LogMsg) (trace : List Nat) (o : RunOutcome) :
    RunOutcome :=
  ⟨o.ok, o.state, log ++ o.log, trace ++ o.trace⟩

/-! ### Concrete steps and handlers -/

/-- Parameters of a `find_and_click` step as `_step_find_and_click` reads
them (manager.py lines 222-239); the per-field defaults of `step.get`
are applied by the caller that builds the record, so every field is
explicit here.  `gotoIfFound` and `gotoIfNotFound` keep the raw optional
integers; the source tests them with Python truthiness, so `0` behaves
like an absent field. -/
structure FacParams where
  templates : List String
  template : Option String
  threshold : ℚ
  timeout : ℚ
  clickAll : Bool
  continueIfNotFound : Bool
  gotoIfFound : Option Int
  gotoIfNotFound : Option Int
deriving Repr, DecidableEq

/-- The step variants `_execute_step` dispatches on (manager.py lines
135-153), with the parameters each handler reads.  Coordinates are kept
optional because the handlers check them for `None`. -/
inductive StepKind where
  | click (x y : Option Int)
  | swipe (x1 y1 x2 y2 : Option Int)
  | wait (duration : ℚ)
  | waitTemplate (template : Option String) (timeout : ℚ)
  | findAndClick (p : FacParams)
  | screenshot (savePath : Option String)
  | notification (message dialogName : String)
  | stopTask (message stepName : String)
  | unknown
deriving Repr, DecidableEq

/-- A step: its kind and its `required` flag
(`step.get("required", True)`, manager.py line 92). -/
structure Step where
  kind : StepKind
  required : Bool
deriving Repr, DecidableEq

/-- The external world a run interacts with: the game name from the
config, the filesystem, the notification callback, the screenshot
transport, and the matcher results on the captured frames.  `findAll`
takes a template path and the threshold; `waitFor` takes a template
path, the timeout handed to the blocking wait, and the threshold. -/
structure Env where
  gameName : String
  fileExists : String → Bool
  notificationCallback : Option (String → String → Bool)
  screenshotOk : Bool
  stepScreenshotOk : Bool
  findAll : String → ℚ → List (Int × Int)
  waitFor : String → ℚ → ℚ → Option (Int × Int)

/-- Python truthiness of an optional integer field (`if goto_step:`):
`None` and `0` are falsy. -/
def truthyInt : Option Int → Bool
  | none => false
  | some n => n != 0

/-- Python truthiness of an optional string field: `None` and the empty
string are falsy. -/
def truthyStr : Option String → Bool
  | none => false
  | some s => s ≠ ""

/-- Game-scoped template path,
`Path("config/templates") / sanitized_game_name / template`
(manager.py line 252). -/
def gameTemplatePath (g t : String) : String :=
  "config/templates/" ++ g ++ "/" ++ t

/-- Global template path, `Path("config/templates") / template`
(manager.py line 254). -/
def globalTemplatePath (t : String) : String :=
  "config/templates/" ++ t

/-- Resolution of one template name (manager.py lines 250-259): the
game-scoped path when that file exists, else the global path when that
exists, else dropped (with a warning). -/
def resolveTemplate (env : Env) (g t : String) : Option (String × String) :=
  if env.fileExists (gameTemplatePath g t) then some (t, gameTemplatePath g t)
  else if env.fileExists (globalTemplatePath t) then
    some (t, globalTemplatePath t)
  else none

/-- The `valid_templates` list (manager.py lines 248-259). -/
def validTemplates (env : Env) (g : String) (ts : List String) :
    List (String × String) :=
  ts.filterMap (resolveTemplate env g)

/-- The first template whose `find_all_templates` call on the captured
frame returns matches (manager.py lines 296-312; the loop breaks at the
first nonempty result). -/
def firstAllMatches (env : Env) (threshold : ℚ) :
    List (String × String) → List (Int × Int)
  | [] => []
  | t :: rest =>
    let ms := env.findAll t.2 threshold
    if ms ≠ [] then ms else firstAllMatches env threshold rest

/-- `timeout_per_template = max(1.0, timeout / len(valid_templates))`
(manager.py line 351): the per-candidate timeout of the non-`click_all`
mode, floored at one second. -/
def timeout_per_template (timeout : ℚ) (k : Nat) : ℚ :=
  max 1 (timeout / k)

/-- The first template for which the blocking `wait_for_template`
returns a point (manager.py lines 354-369). -/
def firstWaitResult (env : Env) (threshold tpt : ℚ) :
    List (String × String) → Option (Int × Int)
  | [] => none
  | t :: rest =>
    match env.waitFor t.2 tpt threshold with
    | some r => some r
    | none => firstWaitResult env threshold tpt rest

/-- The shared not-found exit of `_step_find_and_click` (manager.py
lines 263-270, 316-323 and 385-392): jump if `goto_step_if_not_found`
is truthy, else succeed plainly if `continue_if_not_found`, else fail.
Returns the step result and the scheduled jump. -/
def facNotFound (p : FacParams) : Bool × Option Int :=
  if truthyInt p.gotoIfNotFound then (true, p.gotoIfNotFound)
  else if p.continueIfNotFound then (true, none)
  else (false, none)

/-- The found exit of `_step_find_and_click` (manager.py lines 332-337
and 377-382): succeed, scheduling the `goto_step_if_found` jump when
that field is truthy. -/
def facFound (p : FacParams) : Bool × Option Int :=
  if truthyInt p.gotoIfFound then (true, p.gotoIfFound) else (true, none)

/-- `TaskManager._step_find_and_click` (manager.py lines 219-392).
The emulator clicks and sleeps are external effects with no bearing on
the step result and are elided.  Structure, in source order: pick the
`templates` list, else the legacy single `template` (both by Python
truthiness), else fail (lines 226-232); resolve every candidate path
(lines 248-259); with none resolved take the not-found exit (lines
261-270); in `click_all` mode fail when the screenshot fails (lines
280-285), find the first candidate with matches on that one frame and
click them all, taking the found exit, else the not-found exit (lines
296-337); otherwise wait for each candidate in order with the split
timeout and click the first hit, taking the found exit, else the
not-found exit (lines 349-392). -/
def step_find_and_click (env : Env) (p : FacParams) : Bool × Option Int :=
  let templateList : Option (List String) :=
    if p.templates ≠ [] then some p.templates
    else if truthyStr p.template then some [p.template.getD ""]
    else none
  match templateList with
  | none => (false, none)
  | some tlist =>
    let g := sanitize_filename env.gameName
    let valid := validTemplates env g tlist
    if valid = [] then facNotFound p
    else if p.clickAll then
      if !env.screenshotOk then (false, none)
      else
        let allMatches := firstAllMatches env p.threshold valid
        if allMatches = [] then facNotFound p else facFound p
    else
      let tpt := timeout_per_template p.timeout valid.length
      match firstWaitResult env p.threshold tpt valid with
      | some _ => facFound p
      | none => facNotFound p

/-- `TaskManager._step_click` (manager.py lines 155-166): fails when a
coordinate is missing; the tap itself and the sleep are external
effects whose transport result is ignored. -/
def step_click (x y : Option Int) : Bool :=
  match x, y with
  | some _, some _ => true
  | _, _ => false

/-- `TaskManager._step_swipe` (manager.py lines 168-182). -/
def step_swipe (x1 y1 x2 y2 : Option Int) : Bool :=
  match x1, y1, x2, y2 with
  | some _, some _, some _, some _ => true
  | _, _, _, _ => false

/-- `TaskManager._step_wait_template` (manager.py lines 190-217):
missing or empty template name fails; two-tier path resolution; absent
file fails; else block on `wait_for_template` with the step timeout and
the matcher default threshold 0.8. -/
def step_wait_template (env : Env) (template : Option String)
    (timeout : ℚ) : Bool :=
  if !truthyStr template then false
  else
    let t := template.getD ""
    let g := sanitize_filename env.gameName
    if env.fileExists (gameTemplatePath g t) then
      (env.waitFor (gameTemplatePath g t) timeout (4/5)).isSome
    else if env.fileExists (globalTemplatePath t) then
      (env.waitFor (globalTemplatePath t) timeout (4/5)).isSome
    else false

/-- `TaskManager._step_notification` (manager.py lines 415-437): with a
callback, a `True` answer continues; a `False` answer stops the run
(`running := False`), marks `user_requested_stop := True` and reports
step failure; with no callback the step logs and succeeds. -/
def step_notification (cb : Option (String → String → Bool))
    (message dialogName : String) (st : RunState) : RunState × Bool :=
  match cb with
  | some f =>
    if f message dialogName then (st, true)
    else ({ st with running := false, userRequestedStop := true }, false)
  | none => (st, true)

/-- `TaskManager._step_stop_task` (manager.py lines 439-452):
unconditionally sets `force_stop_task := True` and `running := False`
and reports success. -/
def step_stop_task (st : RunState) : RunState × Bool :=
  ({ st with forceStopTask := true, running := false }, true)

/-- `TaskManager._execute_step` (manager.py lines 116-153): dispatch on
the step type; an unknown type logs a warning and fails.  The result
triple is the updated flag state, the handler boolean, and the value
left in `next_step_index` (only `find_and_click` ever sets one). -/
def execute_step (env : Env) (step : Step) (st : RunState) :
    RunState × Bool × Option Int :=
  match step.kind with
  | .click x y => (st, step_click x y, none)
  | .swipe x1 y1 x2 y2 => (st, step_swipe x1 y1 x2 y2, none)
  | .wait _ => (st, true, none)
  | .waitTemplate t tmo => (st, step_wait_template env t tmo, none)
  | .findAndClick p =>
    let r := step_find_and_click env p
    (st, r.1, r.2)
  | .screenshot _ => (st, env.stepScreenshotOk, none)
  | .notification m dn =>
    let r := step_notification env.notificationCallback m dn st
    (r.1, r.2, none)
  | .stopTask _ _ =>
    let r := step_stop_task st
    (r.1, r.2, none)
  | .unknown => (st, false, none)

/-! ### Concrete oracle environments for witnesses -/

/-- An environment in which no file exists, captures succeed, nothing
matches and there is no notification callback. -/
def envNone : Env :=
  { gameName := "game"
    fileExists := fun _ => false
    notificationCallback := none
    screenshotOk := true
    stepScreenshotOk := true
    findAll := fun _ _ => []
    waitFor := fun _ _ _ => none }

/-- `envNone` with a notification callback that always answers stop. -/
def envCbFalse : Env :=
  { envNone with notificationCallback := some (fun _ _ => false) }

/-- A `find_and_click` parameter record with a not-found jump target of
2 (fields: templates, template, threshold, timeout, clickAll,
continueIfNotFound, gotoIfFound, gotoIfNotFound). -/
def facEx : FacParams :=
  ⟨["a"], none, 7/10, 10, false, false, none, some 2⟩

/-- The same record with the not-found jump target set to 0, which
Python truthiness treats as absent. -/
def facZero : FacParams :=
  ⟨["a"], none, 7/10, 10, false, false, none, some 0⟩

/-! ## Helper lemmas -/

theorem withAccum_withAccum (l₁ l₂ : List LogMsg) (t₁ t₂ : List Nat)
    (o : RunOutcome) :
    withAccum l₁ t₁ (withAccum l₂ t₂ o)
      = withAccum (l₁ ++ l₂) (t₁ ++ t₂) o := by
  simp [withAccum, List.append_assoc]

/-- The accumulated log and trace never influence control flow: a run is
the canonical run (empty accumulators) with the accumulators
prepended. -/
theorem runLoop_accum {α : Type} (req : α → Bool)
    (exec : α → RunState → RunState × Bool × Option Int) (steps : List α) :
    ∀ (fuel stepIndex : Nat) (st : RunState) (log : List LogMsg)
      (trace : List Nat),
      runLoop req exec steps fuel stepIndex st log trace
        = (runLoop req exec steps fuel stepIndex st [] []).map
            (withAccum log trace) := by
  intro fuel
  induction fuel with
  | zero => intro i st log trace; rfl
  | succ f ih =>
    intro i st log trace
    rw [runLoop, runLoop]
    by_cases hle : i ≤ steps.length
    · by_cases hrun : st.running
      · cases hstep : steps[i - 1]? with
        | none => simp [hle, hrun, hstep, withAccum]
        | some step =>
          by_cases hok : (exec step st).2.1
          · simp only [hle, hrun, hstep, hok, if_true, List.nil_append]
            rw [ih _ _ (log ++ (resolveJump steps.length i (exec step st).2.2).2)
                (trace ++ [i]),
              ih _ _ ((resolveJump steps.length i (exec step st).2.2).2) [i]]
            cases hcan : runLoop req exec steps f
                (resolveJump steps.length i (exec step st).2.2).1
                (exec step st).1 [] [] with
            | none => simp [hcan]
            | some o => simp [hcan, withAccum_withAccum]
          · by_cases hreq : req step
            · simp [hle, hrun, hstep, hok, hreq, withAccum]
            · simp only [hle, hrun, hstep, hok, hreq, if_true, if_false,
                Bool.false_eq_true, List.nil_append]
              rw [ih _ _
                  (log ++ [LogMsg.stepFailedWarn]
                    ++ (resolveJump steps.length i (exec step st).2.2).2)
                  (trace ++ [i]),
                ih _ _
                  ([LogMsg.stepFailedWarn]
                    ++ (resolveJump steps.length i (exec step st).2.2).2) [i]]
              cases hcan : runLoop req exec steps f
                  (resolveJump steps.length i (exec step st).2.2).1
                  (exec step st).1 [] [] with
              | none => simp [hcan]
              | some o => simp [hcan, withAccum_withAccum]
      · simp [hle, hrun, withAccum]
    · simp [hle, withAccum]

/-! ## Claim C1 — out-of-range jumps are discarded -/

/-- Claim C1: at any reached step whose handler leaves a jump target
`n`, when `n` lies outside `[1, len(steps)]` the run logs exactly one
warning, advances the cursor to `i + 1`, and from there behaves exactly
as the same run with no jump set: both continuations are the same
canonical run, differing only in the one warning entry prepended to the
log (same result, same final state, same executed steps).  When `n` lies
inside `[1, len(steps)]` the cursor is set to exactly `n`.  `W` is the
step-failure warning emitted before the jump is resolved when the
handler failed (possible only for a non-required step, or the loop
returns before resolving the jump). -/
theorem claim_c1_jump_resolution {α : Type} (req : α → Bool)
    (exec : α → RunState → RunState × Bool × Option Int) (steps : List α)
    (fuel i : Nat) (st : RunState) (log : List LogMsg) (trace : List Nat)
    (step : α) (n : Int) (W : List LogMsg)
    (hle : i ≤ steps.length)
    (hrun : st.running = true)
    (hstep : steps[i - 1]? = some step)
    (hjump : (exec step st).2.2 = some n)
    (hnofail : (exec step st).2.1 = true ∨ req step = false)
    (hW : W = if (exec step st).2.1 = true then [] else [LogMsg.stepFailedWarn]) :
    (¬ (1 ≤ n ∧ n ≤ (steps.length : Int)) →
      ∃ cont : Option RunOutcome,
        runLoop req exec steps (fuel + 1) i st log trace
          = cont.map
              (withAccum (log ++ W ++ [LogMsg.invalidJump n]) (trace ++ [i]))
        ∧ runLoop req exec steps fuel (i + 1) (exec step st).1
              (log ++ W) (trace ++ [i])
          = cont.map (withAccum (log ++ W) (trace ++ [i])))
    ∧ ((1 ≤ n ∧ n ≤ (steps.length : Int)) →
        runLoop req exec steps (fuel + 1) i st log trace
          = runLoop req exec steps fuel n.toNat (exec step st).1
              (log ++ W ++ [LogMsg.jumpToStep n]) (trace ++ [i])) := by
  constructor
  · intro hinv
    refine ⟨runLoop req exec steps fuel (i + 1) (exec step st).1 [] [], ?_, ?_⟩
    · rcases hnofail with hok | hreqf
      · have hWnil : W = [] := by simp [hW, hok]
        subst hWnil
        rw [runLoop]
        simp only [hle, if_true, hrun, hstep, hok, hjump, resolveJump, hinv,
          if_false]
        rw [runLoop_accum]
        simp
      · by_cases hok : (exec step st).2.1 = true
        · have hWnil : W = [] := by simp [hW, hok]
          subst hWnil
          rw [runLoop]
          simp only [hle, if_true, hrun, hstep, hok, hjump, resolveJump, hinv,
            if_false]
          rw [runLoop_accum]
          simp
        · have hWwarn : W = [LogMsg.stepFailedWarn] := by simp [hW, hok]
          subst hWwarn
          rw [runLoop]
          simp only [hle, if_true, hrun, hstep, hok, hreqf, hjump, resolveJump,
            hinv, if_false, Bool.false_eq_true]
          rw [runLoop_accum]
          try simp
    · rw [runLoop_accum]
  · intro hval
    rcases hnofail with hok | hreqf
    · have hWnil : W = [] := by simp [hW, hok]
      subst hWnil
      rw [runLoop]
      simp only [hle, if_true, hrun, hstep, hok, hjump, resolveJump, hval,
        if_true]
      simp
    · by_cases hok : (exec step st).2.1 = true
      · have hWnil : W = [] := by simp [hW, hok]
        subst hWnil
        rw [runLoop]
        simp only [hle, if_true, hrun, hstep, hok, hjump, resolveJump, hval,
          if_true]
        simp
      · have hWwarn : W = [LogMsg.stepFailedWarn] := by simp [hW, hok]
        subst hWwarn
        rw [runLoop]
        simp only [hle, if_true, hrun, hstep, hok, hreqf, hjump, resolveJump,
          hval, if_true, Bool.false_eq_true]
        simp

/-- Claim C1, witness: a two-step program whose handler always asks to
jump to step 5 — out of range — advances from step 1 to step 2 with one
warning, behaving like the jump-free continuation. -/
theorem claim_c1_witness :
    ∃ cont : Option RunOutcome,
      runLoop (fun _ : Nat => true) (fun _ s0 => (s0, true, some 5)) [7, 8]
          4 1 ⟨true, false, false⟩ [] []
        = cont.map
            (withAccum ([] ++ [] ++ [LogMsg.invalidJump 5]) ([] ++ [1]))
      ∧ runLoop (fun _ : Nat => true) (fun _ s0 => (s0, true, some 5)) [7, 8]
          3 2 ⟨true, false, false⟩ ([] ++ []) ([] ++ [1])
        = cont.map (withAccum ([] ++ []) ([] ++ [1])) :=
  (claim_c1_jump_resolution (fun _ : Nat => true)
    (fun _ s0 => (s0, true, some 5)) [7, 8] 3 1 ⟨true, false, false⟩ [] []
    7 5 [] (by decide) rfl rfl rfl (Or.inl rfl) rfl).1 (by decide)

/-! ## Claim C2 — StopTask halts the run with success -/

/-- Claim C2: when a `stop_task` step at position `k` is reached (the
loop arrives at cursor `k` with `running = true`), its handler returns
`true` after setting `force_stop_task := true` and `running := false`,
no handler of any later position runs (the trace gains only `k`), and
the run finishes with result `true`. -/
theorem claim_c2_stop_task (env : Env) (steps : List Step) (k fuel : Nat)
    (st : RunState) (log : List LogMsg) (trace : List Nat)
    (m sn : String) (rq : Bool)
    (hstep : steps[k - 1]? = some ⟨.stopTask m sn, rq⟩)
    (hk : k ≤ steps.length)
    (hrun : st.running = true) :
    runLoop Step.required (execute_step env) steps (fuel + 2) k st log trace
      = some ⟨true, ⟨false, st.userRequestedStop, true⟩,
          log ++ [LogMsg.taskCompleted], trace ++ [k]⟩
    ∧ execute_step env ⟨.stopTask m sn, rq⟩ st
      = ({ st with running := false, forceStopTask := true }, true, none) := by
  constructor
  · by_cases hle2 : k + 1 ≤ steps.length <;>
      simp [show fuel + 2 = fuel + 1 + 1 from rfl, runLoop, hk, hrun, hstep,
        execute_step, step_stop_task, resolveJump, hle2]
  · rfl

/-- Claim C2, witness: a two-step program whose first step is
`stop_task` finishes at once with success, force-stop set, and only
step 1 in the trace. -/
theorem claim_c2_witness :
    runLoop Step.required (execute_step envNone)
        [⟨.stopTask "done" "stop", true⟩, ⟨.click (some 1) (some 2), true⟩]
        2 1 ⟨true, false, false⟩ [] []
      = some ⟨true, ⟨false, false, true⟩, [LogMsg.taskCompleted], [1]⟩
    ∧ execute_step envNone ⟨.stopTask "done" "stop", true⟩ ⟨true, false, false⟩
      = (⟨false, false, true⟩, true, none) :=
  claim_c2_stop_task envNone
    [⟨.stopTask "done" "stop", true⟩, ⟨.click (some 1) (some 2), true⟩]
    1 0 ⟨true, false, false⟩ [] [] "done" "stop" true rfl (by decide) rfl

/-! ## Claim C3 — Notification callback answering stop -/

/-- Claim C3, counterexample: the claim quantifies over every program,
but a program whose `notification` step carries `required = false` makes
`run_task` return `true` after the callback answers stop — the handler
still fails and sets the flags, and no further handler runs, yet the
public result is success, against the claimed `false`. -/
theorem claim_c3_counterexample :
    run_task Step.required (execute_step envCbFalse)
        [⟨.notification "msg" "dlg", false⟩] 3 ⟨false, false, false⟩
      = some ⟨true, ⟨false, true, false⟩,
          [LogMsg.stepFailedWarn, LogMsg.taskCompleted], [1]⟩ := by
  rfl

/-- Claim C3, amended: when a `notification` step whose callback answers
`False` is reached at position `k`, the handler reports failure and sets
`running := false` and `user_requested_stop := true` (a flag distinct
from `force_stop_task`, which is left unchanged), and no further step
handler is invoked; `run_task` returns `false` when the step is required
(the default), while a step explicitly marked not required still halts
the run but reports overall success. -/
theorem claim_c3_amended (env : Env) (cb : String → String → Bool)
    (m dn : String) (steps : List Step) (k fuel : Nat) (st : RunState)
    (log : List LogMsg) (trace : List Nat) (rq : Bool)
    (hcb : env.notificationCallback = some cb)
    (hfalse : cb m dn = false)
    (hstep : steps[k - 1]? = some ⟨.notification m dn, rq⟩)
    (hk : k ≤ steps.length)
    (hrun : st.running = true) :
    step_notification (some cb) m dn st
      = ({ st with running := false, userRequestedStop := true }, false)
    ∧ (rq = true →
        runLoop Step.required (execute_step env) steps (fuel + 1) k st log trace
          = some ⟨false, ⟨false, true, st.forceStopTask⟩,
              log ++ [LogMsg.stepFailedWarn], trace ++ [k]⟩)
    ∧ (rq = false →
        runLoop Step.required (execute_step env) steps (fuel + 2) k st log trace
          = some ⟨true, ⟨false, true, st.forceStopTask⟩,
              log ++ [LogMsg.stepFailedWarn, LogMsg.taskCompleted],
              trace ++ [k]⟩) := by
  refine ⟨by simp [step_notification, hfalse], fun hrq => ?_, fun hrq => ?_⟩
  · subst hrq
    simp [runLoop, hk, hrun, hstep, execute_step, step_notification, hcb, hfalse]
  · subst hrq
    by_cases hle2 : k + 1 ≤ steps.length <;>
      simp [show fuel + 2 = fuel + 1 + 1 from rfl, runLoop, hk, hrun, hstep,
        execute_step, step_notification, hcb, hfalse, resolveJump, hle2]

/-- Claim C3, witness: the amended theorem applied to a one-step
program with a required notification step and a callback that answers
stop. -/
theorem claim_c3_witness :
    step_notification (some (fun _ _ => false)) "msg" "dlg" ⟨true, false, false⟩
      = (⟨false, true, false⟩, false)
    ∧ (true = true →
        runLoop Step.required (execute_step envCbFalse)
            [⟨.notification "msg" "dlg", true⟩] 1 1 ⟨true, false, false⟩ [] []
          = some ⟨false, ⟨false, true, false⟩, [LogMsg.stepFailedWarn], [1]⟩)
    ∧ (true = false →
        runLoop Step.required (execute_step envCbFalse)
            [⟨.notification "msg" "dlg", true⟩] 2 1 ⟨true, false, false⟩ [] []
          = some ⟨true, ⟨false, true, false⟩,
              [LogMsg.stepFailedWarn, LogMsg.taskCompleted], [1]⟩) :=
  claim_c3_amended envCbFalse (fun _ _ => false) "msg" "dlg"
    [⟨.notification "msg" "dlg", true⟩] 1 0 ⟨true, false, false⟩ [] [] true
    rfl rfl rfl (by decide) rfl

/-! ## Claim C4 — find_and_click not-found jump -/

/-- With no matches for any candidate on the captured frame, the
`click_all` search over the candidates comes back empty. -/
theorem firstAllMatches_eq_nil (env : Env) (threshold : ℚ)
    (l : List (String × String))
    (h : ∀ t ∈ l, env.findAll t.2 threshold = []) :
    firstAllMatches env threshold l = [] := by
  induction l with
  | nil => rfl
  | cons t rest ih =>
    have ht := h t (by simp)
    simp only [firstAllMatches, ht]
    simpa using ih (fun u hu => h u (by simp [hu]))

/-- With every blocking wait timing out, the sequential search over the
candidates comes back empty. -/
theorem firstWaitResult_eq_none (env : Env) (threshold tpt : ℚ)
    (l : List (String × String))
    (h : ∀ t ∈ l, env.waitFor t.2 tpt threshold = none) :
    firstWaitResult env threshold tpt l = none := by
  induction l with
  | nil => rfl
  | cons t rest ih =>
    have ht := h t (by simp)
    simp only [firstWaitResult, ht]
    exact ih (fun u hu => h u (by simp [hu]))

/-- The not-found exit schedules the jump whenever the target is a
nonzero integer. -/
theorem facNotFound_truthy (p : FacParams) (n : Int)
    (hg : p.gotoIfNotFound = some n) (hn : n ≠ 0) :
    facNotFound p = (true, some n) := by
  simp [facNotFound, truthyInt, hg, hn]

/-- Claim C4, counterexample: the claim quantifies over every step
"with gotoIfNotFound set", but setting it to the integer 0 is falsy in
Python, so a not-found outcome (here: no candidate file resolves) makes
the handler fail instead of succeeding with a scheduled jump. -/
theorem claim_c4_counterexample :
    step_find_and_click envNone facZero = (false, none) := by
  rfl

/-- Claim C4, amended: for every `find_and_click` step whose
`gotoIfNotFound` is set to a nonzero index `n`, each not-found outcome —
no candidate template file resolves; `click_all` mode finds no match for
any candidate on the captured frame; or every per-candidate blocking
wait times out — makes the handler report success with the jump to `n`
scheduled, so a required step never aborts the run on such an
absence. -/
theorem claim_c4_amended (env : Env) (p : FacParams) (n : Int)
    (hgoto : p.gotoIfNotFound = some n) (hn : n ≠ 0)
    (htl : p.templates ≠ []) :
    (validTemplates env (sanitize_filename env.gameName) p.templates = [] →
      step_find_and_click env p = (true, some n))
    ∧ (p.clickAll = true → env.screenshotOk = true →
        (∀ t ∈ validTemplates env (sanitize_filename env.gameName) p.templates,
          env.findAll t.2 p.threshold = []) →
        step_find_and_click env p = (true, some n))
    ∧ (p.clickAll = false →
        (∀ t ∈ validTemplates env (sanitize_filename env.gameName) p.templates,
          env.waitFor t.2
            (timeout_per_template p.timeout
              (validTemplates env (sanitize_filename env.gameName)
                p.templates).length) p.threshold = none) →
        step_find_and_click env p = (true, some n)) := by
  refine ⟨fun hv => ?_, fun hca hss hall => ?_, fun hca hall => ?_⟩
  · simp only [step_find_and_click, htl, ne_eq, not_false_eq_true, if_true, hv]
    simp [facNotFound_truthy p n hgoto hn]
  · by_cases hv : validTemplates env (sanitize_filename env.gameName)
        p.templates = []
    · simp only [step_find_and_click, htl, ne_eq, not_false_eq_true, if_true, hv]
      simp [facNotFound_truthy p n hgoto hn]
    · have hfa := firstAllMatches_eq_nil env p.threshold
        (validTemplates env (sanitize_filename env.gameName) p.templates) hall
      simp only [step_find_and_click, htl, ne_eq, not_false_eq_true, if_true,
        hv, hca, hss, hfa]
      simp [hv, facNotFound_truthy p n hgoto hn]
  · by_cases hv : validTemplates env (sanitize_filename env.gameName)
        p.templates = []
    · simp only [step_find_and_click, htl, ne_eq, not_false_eq_true, if_true, hv]
      simp [facNotFound_truthy p n hgoto hn]
    · have hfw := firstWaitResult_eq_none env p.threshold
        (timeout_per_template p.timeout
          (validTemplates env (sanitize_filename env.gameName)
            p.templates).length)
        (validTemplates env (sanitize_filename env.gameName) p.templates) hall
      simp only [step_find_and_click, htl, ne_eq, not_false_eq_true, if_true,
        hv, hca, hfw]
      simp [hv, facNotFound_truthy p n hgoto hn]

/-- Claim C4, witness: the amended theorem applied to a concrete step
with not-found jump target 2 in an environment where no template file
exists. -/
theorem claim_c4_witness :
    (validTemplates envNone (sanitize_filename envNone.gameName)
        facEx.templates = [] →
      step_find_and_click envNone facEx = (true, some 2))
    ∧ (facEx.clickAll = true → envNone.screenshotOk = true →
        (∀ t ∈ validTemplates envNone (sanitize_filename envNone.gameName)
            facEx.templates,
          envNone.findAll t.2 facEx.threshold = []) →
        step_find_and_click envNone facEx = (true, some 2))
    ∧ (facEx.clickAll = false →
        (∀ t ∈ validTemplates envNone (sanitize_filename envNone.gameName)
            facEx.templates,
          envNone.waitFor t.2
            (timeout_per_template facEx.timeout
              (validTemplates envNone (sanitize_filename envNone.gameName)
                facEx.templates).length) facEx.threshold = none) →
        step_find_and_click envNone facEx = (true, some 2)) :=
  claim_c4_amended envNone facEx 2 rfl (by decide) (by decide)

/-! ## Claim C8 — sanitize_filename on a Vietnamese name -/

/-- Claim C8, counterexample: sanitizing the name given in the claim does
not yield the string the claim states.  The letter Đ (U+0110) has no
canonical decomposition in NFD, so `remove_accents` keeps it, and
Python's Unicode-aware word class keeps it again in the strip, so the
first letter of the result is Đ, not D. -/
theorem claim_c8_counterexample :
    sanitize_filename "Đế Chế 2 Việt" ≠ "De_Che_2_Viet" := by
  decide

/-- Claim C8, amended: `sanitize_filename` applied to "Đế Chế 2 Việt"
returns exactly "Đe_Che_2_Viet" — the combining accents are folded to
base letters and spaces become underscores, but the stroked letter Đ is
preserved, because U+0110 does not decompose under NFD and is a word
character for the regex strip. -/
theorem claim_c8_amended :
    sanitize_filename "Đế Chế 2 Việt" = "Đe_Che_2_Viet" := by
  decide

/-! ## Claim C9 — unconnected controller commands -/

/-- Claim C9: on a controller session with `connected = false`, each of
`click`, `swipe`, `input_text`, `press_key` and `get_screen_size` issues
no remote command and returns failure (`false`, or `none` for the screen
size) rather than raising, whatever the transport oracle would
answer. -/
theorem claim_c9_unconnected_commands (env : AdbEnv) (c : Controller)
    (x y x1 y1 x2 y2 duration : Int) (text keycode : String)
    (hc : c.connected = false) :
    click env c x y = (false, [])
    ∧ swipe env c x1 y1 x2 y2 duration = (false, [])
    ∧ input_text env c text = (false, [])
    ∧ press_key env c keycode = (false, [])
    ∧ get_screen_size env c = (none, []) := by
  refine ⟨?_, ?_, ?_, ?_, ?_⟩ <;>
    simp [click, swipe, input_text, press_key, get_screen_size, hc]

/-- Claim C9, witness: the theorem applied to a concrete unconnected
controller and a transport oracle that would answer every command. -/
theorem claim_c9_witness :
    click ⟨fun _ => some "ok"⟩ ⟨false, none, "adb"⟩ 3 4 = (false, [])
    ∧ swipe ⟨fun _ => some "ok"⟩ ⟨false, none, "adb"⟩ 1 2 3 4 300 = (false, [])
    ∧ input_text ⟨fun _ => some "ok"⟩ ⟨false, none, "adb"⟩ "hi" = (false, [])
    ∧ press_key ⟨fun _ => some "ok"⟩ ⟨false, none, "adb"⟩ "KEYCODE_BACK"
        = (false, [])
    ∧ get_screen_size ⟨fun _ => some "ok"⟩ ⟨false, none, "adb"⟩ = (none, []) :=
  claim_c9_unconnected_commands ⟨fun _ => some "ok"⟩ ⟨false, none, "adb"⟩
    3 4 1 2 3 4 300 "hi" "KEYCODE_BACK" rfl

/-! ## Claim C10 — a stop is reported as success -/

/-- Claim C10: whenever the run loop observes `running = false` at the
top of an iteration — the effect of an external `stop()` request or of a
`StopTask` step — it exits through the completion path and `run_task`
reports `true`: cancellation is success, not failure, at the public
boolean interface.  No further handler runs (the trace is unchanged),
and `stop` itself establishes exactly this `running = false` state. -/
theorem claim_c10_stop_is_success {α : Type} (req : α → Bool)
    (exec : α → RunState → RunState × Bool × Option Int) (steps : List α)
    (fuel stepIndex : Nat) (st : RunState) (log : List LogMsg)
    (trace : List Nat) (hrun : st.running = false) :
    runLoop req exec steps (fuel + 1) stepIndex st log trace
      = some ⟨true, { st with running := false },
          log ++ [LogMsg.taskCompleted], trace⟩
    ∧ (stop st).running = false := by
  constructor
  · rw [runLoop]
    by_cases hle : stepIndex ≤ steps.length <;> simp [hle, hrun]
  · rfl

/-- Claim C10, witness: a one-step program whose state already has
`running = false` at cursor 1 finishes at once with result `true`. -/
theorem claim_c10_witness :
    runLoop Step.required (execute_step envNone)
        [⟨.wait 1, true⟩] 1 1 ⟨false, false, false⟩ [] []
      = some ⟨true, ⟨false, false, false⟩, [LogMsg.taskCompleted], []⟩
    ∧ (stop ⟨false, false, false⟩).running = false :=
  claim_c10_stop_is_success Step.required (execute_step envNone)
    [⟨.wait 1, true⟩] 0 1 ⟨false, false, false⟩ [] [] rfl

/-! ## Claim C5 — find_all_templates deduplication -/

/-- The closeness test is symmetric: squared differences do not depend
on the order of subtraction. -/
theorem tooClose_comm (d : Nat) (p q : Nat × Nat) :
    tooClose d p q = tooClose d q p := by
  unfold tooClose
  rw [show ((p.1 : Int) - q.1) ^ 2 = ((q.1 : Int) - p.1) ^ 2 from by ring,
    show ((p.2 : Int) - q.2) ^ 2 = ((q.2 : Int) - p.2) ^ 2 from by ring]

/-- The greedy filter only ever adds points that are far from everything
already accepted, so pairwise farness of the accumulator is an
invariant. -/
theorem dedupLoop_pairwise (minDist : Nat) :
    ∀ (l : List ((Nat × Nat) × ℚ)) (acc : List (Nat × Nat)),
      acc.Pairwise (fun p q => tooClose minDist p q = false) →
      (dedupLoop minDist acc l).Pairwise
        (fun p q => tooClose minDist p q = false) := by
  intro l
  induction l with
  | nil => intro acc hacc; simpa [dedupLoop] using hacc
  | cons c rest ih =>
    intro acc hacc
    by_cases hd : acc.any (fun q => tooClose minDist c.1 q)
    · simpa [dedupLoop, hd] using ih acc hacc
    · have hfar : ∀ q ∈ acc, tooClose minDist c.1 q = false := by
        intro q hq
        by_contra hqc
        exact hd (List.any_eq_true.mpr
          ⟨q, hq, by revert hqc; cases tooClose minDist c.1 q <;> simp⟩)
      have hacc2 : (acc ++ [c.1]).Pairwise
          (fun p q => tooClose minDist p q = false) := by
        rw [List.pairwise_append]
        refine ⟨hacc, by simp, ?_⟩
        intro p hp q hq
        simp only [List.mem_singleton] at hq
        subst hq
        rw [tooClose_comm]
        exact hfar p hp
      have hd2 : acc.any (fun q => tooClose minDist c.1 q) = false := by
        revert hd; cases acc.any (fun q => tooClose minDist c.1 q) <;> simp
      simpa [dedupLoop, hd2] using ih (acc ++ [c.1]) hacc2

/-- The greedy filter returns the accumulator extended by the centres of
a subsequence of its input. -/
theorem dedupLoop_sublist (minDist : Nat) :
    ∀ (l : List ((Nat × Nat) × ℚ)) (acc : List (Nat × Nat)),
      ∃ ms : List ((Nat × Nat) × ℚ),
        ms.Sublist l ∧ dedupLoop minDist acc l = acc ++ ms.map Prod.fst := by
  intro l
  induction l with
  | nil => intro acc; exact ⟨[], by simp, by simp [dedupLoop]⟩
  | cons c rest ih =>
    intro acc
    by_cases hd : acc.any (fun q => tooClose minDist c.1 q)
    · rcases ih acc with ⟨ms, hsub, heq⟩
      exact ⟨ms, hsub.cons c, by simp [dedupLoop, hd, heq]⟩
    · rcases ih (acc ++ [c.1]) with ⟨ms, hsub, heq⟩
      have hd2 : acc.any (fun q => tooClose minDist c.1 q) = false := by
        revert hd; cases acc.any (fun q => tooClose minDist c.1 q) <;> simp
      refine ⟨c :: ms, hsub.cons₂ c, ?_⟩
      simp [dedupLoop, hd2, heq]

/-- Claim C5, counterexample: with a 5-by-1 template the code floors the
minimum distance to `5 // 2 = 2`, so two returned points can lie at
Euclidean distance exactly 2, which is less than the claimed real bound
`max(w, h) / 2 = 2.5` (stated below squared, `(2 * 2)² < 5²`, to avoid
the square root). -/
theorem claim_c5_counterexample :
    find_all_templates 5 1 0 [((0, 0), 1), ((2, 0), 0)]
      = [(2, 0), (4, 0)]
    ∧ (2 : Int) ^ 2 * (((4 : Int) - 2) ^ 2 + ((0 : Int) - 0) ^ 2)
        < (max 5 1 : Int) ^ 2 := by
  constructor
  · decide
  · decide

/-- Claim C5, amended: for every correlation result, the points
`find_all_templates` returns are pairwise at squared distance at least
`(max(w, h) // 2)²` — the floored integer bound the code enforces, not
the real `max(w, h)/2` — and the returned list is the centre projection
of a subsequence of the descending-confidence ordering of the candidate
centres, hence ordered by descending confidence. -/
theorem claim_c5_amended (w h : Nat) (threshold : ℚ)
    (cells : List ((Nat × Nat) × ℚ)) :
    (find_all_templates w h threshold cells).Pairwise
      (fun p q => tooClose (max w h / 2) p q = false)
    ∧ ∃ ms : List ((Nat × Nat) × ℚ),
        ms.Sublist ((matchCenters w h threshold cells).insertionSort
          confDescBefore)
        ∧ find_all_templates w h threshold cells = ms.map Prod.fst
        ∧ ms.Pairwise confDescBefore := by
  constructor
  · exact dedupLoop_pairwise (max w h / 2) _ [] (by simp)
  · rcases dedupLoop_sublist (max w h / 2)
        ((matchCenters w h threshold cells).insertionSort confDescBefore) []
      with ⟨ms, hsub, heq⟩
    refine ⟨ms, hsub, by simpa [find_all_templates] using heq, ?_⟩
    exact (List.sorted_insertionSort confDescBefore
      (matchCenters w h threshold cells)).sublist hsub

/-! ## Claim C6 — find_template thresholding -/

/-- The fold of `maxLoc` returns either its seed or a member of the
folded list, and its score dominates the seed and every member. -/
theorem maxLoc_fold_spec :
    ∀ (rest : List ((Nat × Nat) × ℚ)) (c : (Nat × Nat) × ℚ),
      (rest.foldl (fun best x => if best.2 < x.2 then x else best) c = c
        ∨ rest.foldl (fun best x => if best.2 < x.2 then x else best) c ∈ rest)
      ∧ c.2 ≤ (rest.foldl (fun best x => if best.2 < x.2 then x else best) c).2
      ∧ ∀ x ∈ rest,
          x.2 ≤ (rest.foldl (fun best x => if best.2 < x.2 then x else best) c).2 := by
  intro rest
  induction rest with
  | nil => intro c; simp
  | cons a rest ih =>
    intro c
    simp only [List.foldl_cons]
    by_cases hca : c.2 < a.2
    · simp only [if_pos hca]
      rcases ih a with ⟨hmem, hge, hall⟩
      refine ⟨?_, le_trans (le_of_lt hca) hge, ?_⟩
      · rcases hmem with h1 | h1
        · right; simp [h1]
        · right; exact List.mem_cons_of_mem a h1
      · intro x hx
        rcases List.mem_cons.mp hx with rfl | hx
        · exact hge
        · exact hall x hx
    · simp only [if_neg hca]
      rcases ih c with ⟨hmem, hge, hall⟩
      refine ⟨hmem.imp id (List.mem_cons_of_mem a), hge, ?_⟩
      intro x hx
      rcases List.mem_cons.mp hx with rfl | hx
      · exact le_trans (le_of_not_lt hca) hge
      · exact hall x hx

/-- Claim C6: on a nonempty correlation result and a threshold in
`(0, 1]`, `find_template` returns `None` exactly when the maximum score
over the frame is below the threshold, and otherwise the centre of the
best-match location, `(best_x + w // 2, best_y + h // 2)` — where the
best-match location genuinely attains the maximum score of the whole
result. -/
theorem claim_c6_find_template (w h : Nat) (threshold : ℚ)
    (cells : List ((Nat × Nat) × ℚ)) (hne : cells ≠ [])
    (_hθ : 0 < threshold ∧ threshold ≤ 1) :
    ∃ lm : (Nat × Nat) × ℚ,
      maxLoc cells = some lm
      ∧ lm ∈ cells
      ∧ (∀ c ∈ cells, c.2 ≤ lm.2)
      ∧ (lm.2 < threshold → find_template w h threshold cells = none)
      ∧ (threshold ≤ lm.2 →
          find_template w h threshold cells
            = some (lm.1.1 + w / 2, lm.1.2 + h / 2)) := by
  match cells, hne with
  | c :: rest, _ =>
    rcases maxLoc_fold_spec rest c with ⟨hmem, hge, hall⟩
    refine ⟨_, rfl, ?_, ?_, fun hlt => ?_, fun hge2 => ?_⟩
    · rcases hmem with h1 | h1
      · rw [h1]; exact List.mem_cons_self c rest
      · exact List.mem_cons_of_mem c h1
    · intro x hx
      rcases List.mem_cons.mp hx with rfl | hx
      · exact hge
      · exact hall x hx
    · simp [find_template, maxLoc, hlt]
    · simp [find_template, maxLoc, not_lt_of_le hge2]

/-- Claim C6, witness: a single-cell result with score 9/10 against
threshold 1/2 yields the centre of that cell. -/
theorem claim_c6_witness :
    ∃ lm : (Nat × Nat) × ℚ,
      maxLoc [((1, 2), 9/10)] = some lm
      ∧ lm ∈ [((1, 2), 9/10)]
      ∧ (∀ c ∈ [((1, 2), 9/10)], c.2 ≤ lm.2)
      ∧ (lm.2 < 1/2 → find_template 4 6 (1/2) [((1, 2), 9/10)] = none)
      ∧ (1/2 ≤ lm.2 →
          find_template 4 6 (1/2) [((1, 2), 9/10)]
            = some (lm.1.1 + 4 / 2, lm.1.2 + 6 / 2)) :=
  claim_c6_find_template 4 6 (1/2) [((1, 2), 9/10)] (by decide)
    ⟨by norm_num, by norm_num⟩

/-! ## Claim C7 — timeout split across candidates -/

/-- Claim C7, counterexample: with total timeout 2 and 4 resolvable
candidates, the per-candidate timeout the code computes is
`max(1.0, 2/4) = 1.0`, not the claimed `T/k = 0.5`, and the
per-candidate timeouts sum to 4, not to the total 2. -/
theorem claim_c7_counterexample :
    timeout_per_template 2 4 = 1
    ∧ ¬ ((2 : ℚ) / 4 = timeout_per_template 2 4)
    ∧ ¬ ((4 : ℚ) * timeout_per_template 2 4 = 2) := by
  refine ⟨?_, ?_, ?_⟩ <;> norm_num [timeout_per_template]

/-- Claim C7, amended: with `k ≥ 1` resolvable candidates and total
timeout `T`, the blocking wait of each tried candidate is given
`max(1.0, T/k)` seconds: at least one second always; exactly `T/k`,
summing to `T`, when `T ≥ k`; and floored to exactly 1 second when
`T < k`. -/
theorem claim_c7_amended (T : ℚ) (k : Nat) (hk : 1 ≤ k) :
    1 ≤ timeout_per_template T k
    ∧ ((k : ℚ) ≤ T →
        timeout_per_template T k = T / k
        ∧ (k : ℚ) * timeout_per_template T k = T)
    ∧ (T < (k : ℚ) → timeout_per_template T k = 1) := by
  have hk0 : (0 : ℚ) < (k : ℚ) := by exact_mod_cast hk
  refine ⟨le_max_left _ _, fun hTk => ?_, fun hTk => ?_⟩
  · have h1 : (1 : ℚ) ≤ T / k := (le_div_iff₀ hk0).mpr (by linarith)
    have heq : timeout_per_template T k = T / k :=
      max_eq_right h1
    exact ⟨heq, by rw [heq]; field_simp⟩
  · have h1 : T / k ≤ 1 := by
      rw [div_le_one hk0]; linarith
    exact max_eq_left h1

/-- Claim C7, witness: ten seconds split over two candidates gives each
wait five seconds, summing back to ten. -/
theorem claim_c7_witness :
    1 ≤ timeout_per_template 10 2
    ∧ ((2 : ℚ) ≤ 10 →
        timeout_per_template 10 2 = 10 / 2
        ∧ (2 : ℚ) * timeout_per_template 10 2 = 10)
    ∧ ((10 : ℚ) < (2 : ℚ) → timeout_per_template 10 2 = 1) :=
  claim_c7_amended 10 2 (by norm_num)

end AutoGame
